import Mathlib

/-!
Shallow embedding of the posh_code Todo backend.

The repository holds two parallel implementations of the same multi-user
Todo service:

* the UUID-keyed variant under `Todo/app` (tasks carry a string `status`
  field in {pending, completed}), and
* the integer-keyed variant under `backend/src` (tasks carry a boolean
  `completed` flag).

Identifiers (UUIDs and auto-increment integers) are modelled as `Nat`:
every use in the source is an equality comparison (`str(a) != str(b)` or
`==`), preserved by any injective encoding.  Wall-clock timestamps
(`datetime.utcnow()`) are modelled as `Nat` and passed explicitly as a
`now` parameter.  Database sessions are modelled as explicit lists of
rows; `session.add/commit/refresh` persists the record unchanged, so a
service function returns the record it would persist.  HTTP handlers are
modelled as `Except Nat _` where the error value is the HTTP status code
raised via `HTTPException`.
-/

namespace PoshCode

/-! ## Data model -/

/-- `Todo/app/models/task.py` `Task` row: UUID-keyed, string `status`
(default "pending"), `created_at` / `updated_at` timestamps. -/
structure TodoTask where
  id : Nat
  user_id : Nat
  title : String
  description : Option String
  status : String
  created_at : Nat
  updated_at : Nat
deriving DecidableEq

/-- `backend/src/models/task.py` `Task` row: integer-keyed, boolean
`completed` flag (default `False`). -/
structure BTask where
  id : Nat
  user_id : Nat
  title : String
  description : Option String
  completed : Bool
  created_at : Nat
  updated_at : Nat
deriving DecidableEq

/-- `User` row; both variants store the same fields
(`Todo/app/models/user.py` and `backend/src/models/user.py`), differing
only in the id type, which is rendered as `Nat`. -/
structure UserRec where
  id : Nat
  email : String
  password_hash : String
  created_at : Nat
deriving DecidableEq

/-! ## Token service

`auth_service` in both variants issues JWTs via `jose.jwt.encode` and
verifies them via `jose.jwt.decode`, which checks the HMAC signature and
the `exp` claim and raises `JWTError` on malformed input, bad signature
or expiry; both `decode_jwt_token` (Todo) and `AuthService.decode_token`
(backend) catch `JWTError` and return `None`.  The token is modelled as
its decoded shape plus a signature value and a malformed flag; `mkSig`
is a concrete stand-in for HMAC-SHA256 over the payload with the secret:
the development only ever compares a token's signature against
`mkSig secret payload`, as `jwt.decode` does. -/

/-- Decoded JWT claims: `sub` (subject, a string or absent), optional
`email`, and the `exp` timestamp. -/
structure JwtPayload where
  sub : Option String
  email : Option String
  exp : Nat
deriving DecidableEq

/-- A presented bearer token: its claims, its signature value, and
whether it is structurally malformed (not three base64 segments). -/
structure JwtToken where
  payload : JwtPayload
  sig : Nat
  malformed : Bool
deriving DecidableEq

/-- Stand-in for the HMAC signature of a payload under a secret. -/
def mkSig (secret : Nat) (p : JwtPayload) : Nat :=
  secret + 2 * p.exp + 3 * (p.sub.getD "").length + 5 * (p.email.getD "").length

/-- `jose.jwt.decode` with default options, as called by both variants:
fails on malformed structure, on a signature mismatch, and on an `exp`
in the past (`exp < now`, no leeway); the callers catch the failure and
return `None`. -/
def jwt_decode (secret now : Nat) (t : JwtToken) : Option JwtPayload :=
  if t.malformed then none
  else if t.sig ≠ mkSig secret t.payload then none
  else if t.payload.exp < now then none
  else some t.payload

/-- `Todo/app/services/auth_service.py` `decode_jwt_token`: decode and
verify, `None` on `JWTError`. -/
def decode_jwt_token (secret now : Nat) (t : JwtToken) : Option JwtPayload :=
  jwt_decode secret now t

/-- `backend/src/services/auth_service.py` `AuthService.decode_token`:
decode and verify, `None` on `JWTError`. -/
def decode_token (secret now : Nat) (t : JwtToken) : Option JwtPayload :=
  jwt_decode secret now t

/-! ## Request schemas

Pydantic parses the JSON body into the schema class, ignoring unknown
keys, enforcing `Field` constraints, then running the `field_validator`s;
any failure is a 422 response.  Parsing is modelled as a function from a
raw body (with every key a client might send) to `Option` of the
validated data. -/

/-- Drop leading whitespace characters from a character list. -/
def dropLeadingWs : List Char → List Char
  | [] => []
  | c :: cs => if c.isWhitespace then dropLeadingWs cs else c :: cs

/-- Python `str.strip()` on the title validators: remove leading and
trailing whitespace. -/
def py_strip (s : String) : String :=
  ⟨(dropLeadingWs ((dropLeadingWs s.data).reverse)).reverse⟩

/-- An optional description exceeds the `max_length` bound. -/
def descTooLong (bound : Nat) : Option String → Bool
  | some d => bound < d.length
  | none => false

/-- A raw task-create body as the client sends it: pydantic keeps only
the schema's declared fields, so `status`, `user_id` and the timestamps
are dropped whatever the client supplies. -/
structure ClientTaskBody where
  title : String
  description : Option String
  status : Option String
  user_id : Option Nat
  created_at : Option Nat
  updated_at : Option Nat
deriving DecidableEq

/-- `Todo/app/schemas/task.py` `TaskCreate` after validation. -/
structure TaskCreateData where
  title : String
  description : Option String
deriving DecidableEq

/-- `Todo/app/schemas/task.py` `TaskCreate`: `title` has
`min_length=1, max_length=255` plus a validator rejecting a
whitespace-only title and returning `v.strip()`; `description` is
optional with `max_length=2000`; all other client keys are ignored. -/
def parse_TaskCreate (b : ClientTaskBody) : Option TaskCreateData :=
  if b.title.length < 1 then none
  else if 255 < b.title.length then none
  else if descTooLong 2000 b.description then none
  else if (py_strip b.title).isEmpty then none
  else some { title := py_strip b.title, description := b.description }

/-- `backend/src/models/task.py` `TaskCreate` after validation. -/
structure BTaskCreateData where
  title : String
  description : Option String
deriving DecidableEq

/-- `backend/src/models/task.py` `TaskCreate`: `title` has only
`max_length=255` (no minimum, no trim validator); `description` is
optional with `max_length=1000`; other client keys are ignored. -/
def parse_BTaskCreate (b : ClientTaskBody) : Option BTaskCreateData :=
  if 255 < b.title.length then none
  else if descTooLong 1000 b.description then none
  else some { title := b.title, description := b.description }

/-- A raw partial-update body for the Todo variant.  An outer `none`
means the key is absent (`model_dump(exclude_unset=True)` omits it); for
`description` the inner `Option` is the value, which may be an explicit
null.  An explicit null for `title` or `status` would set a non-nullable
column to null and can never be persisted, so those values carry a
string when present. -/
structure RawTaskUpdate where
  title : Option String
  description : Option (Option String)
  status : Option String
deriving DecidableEq

/-- `Todo/app/schemas/task.py` `TaskUpdate` after validation; `some` in
a field means the key was present in the request. -/
structure TaskUpdateData where
  title : Option String
  description : Option (Option String)
  status : Option String
deriving DecidableEq

/-- Title rule of `TaskUpdate` (Todo): an absent key stays absent; a
present title must satisfy `min_length=1`, `max_length=255` and the
strip validator, and is stored stripped. -/
def validate_update_title : Option String → Option (Option String)
  | none => some none
  | some t =>
    if t.length < 1 then none
    else if 255 < t.length then none
    else if (py_strip t).isEmpty then none
    else some (some (py_strip t))

/-- Description rule of both `TaskUpdate` schemas: an absent key stays
absent; a present value may be an explicit null or a string within the
`max_length` bound, kept verbatim. -/
def validate_update_description (bound : Nat) :
    Option (Option String) → Option (Option (Option String))
  | none => some none
  | some none => some (some none)
  | some (some d) => if bound < d.length then none else some (some (some d))

/-- Status rule of `TaskUpdate` (Todo): `max_length=50` and membership
in {pending, completed}. -/
def validate_update_status : Option String → Option (Option String)
  | none => some none
  | some s =>
    if 50 < s.length then none
    else if s = "pending" ∨ s = "completed" then some (some s)
    else none

/-- `Todo/app/schemas/task.py` `TaskUpdate`: every present field must
pass its rule, any failure rejects the whole body (422). -/
def parse_TaskUpdate (b : RawTaskUpdate) : Option TaskUpdateData :=
  match validate_update_title b.title,
        validate_update_description 2000 b.description,
        validate_update_status b.status with
  | some t, some d, some s =>
    some { title := t, description := d, status := s }
  | _, _, _ => none

/-- A raw partial-update body for the backend variant. -/
structure RawBTaskUpdate where
  title : Option String
  description : Option (Option String)
  completed : Option Bool
deriving DecidableEq

/-- `backend/src/models/task.py` `TaskUpdate` after validation. -/
structure BTaskUpdateData where
  title : Option String
  description : Option (Option String)
  completed : Option Bool
deriving DecidableEq

/-- Title rule of `TaskUpdate` (backend): only `max_length=255`; no
trim, no non-empty check, value kept verbatim. -/
def validate_b_update_title : Option String → Option (Option String)
  | none => some none
  | some t => if 255 < t.length then none else some (some t)

/-- `backend/src/models/task.py` `TaskUpdate`: `title` bounded by
`max_length=255`, `description` by `max_length=1000`, `completed` a
boolean; no trim or non-empty validation anywhere. -/
def parse_BTaskUpdate (b : RawBTaskUpdate) : Option BTaskUpdateData :=
  match validate_b_update_title b.title,
        validate_update_description 1000 b.description with
  | some t, some d =>
    some { title := t, description := d, completed := b.completed }
  | _, _ => none

/-! ## Task services

`Todo/app/services/task_service.py` and
`backend/src/services/task_service.py`.  The database is a list of
rows; `select(...).where(...)` filters it, `order_by(created_at.desc())`
is insertion sort on the key, descending. -/

/-- Insert into a list sorted descending by `key`. -/
def insertDesc (key : α → Nat) (x : α) : List α → List α
  | [] => [x]
  | y :: ys => if key y ≤ key x then x :: y :: ys else y :: insertDesc key x ys

/-- Sort a list descending by `key` (`order_by(col.desc())`). -/
def sortDesc (key : α → Nat) : List α → List α
  | [] => []
  | x :: xs => insertDesc key x (sortDesc key xs)

/-- `task_service.get_user_tasks` (Todo): all tasks whose `user_id`
matches, newest first. -/
def get_user_tasks (db : List TodoTask) (user_id : Nat) : List TodoTask :=
  sortDesc (fun t => t.created_at) (db.filter (fun t => t.user_id == user_id))

/-- `task_service.create_task` (Todo): builds the row with the caller's
`user_id`, the validated title and description, `status="pending"` and
both timestamps set to now, then persists it.  `fresh_id` is the
generated primary key. -/
def create_task (now fresh_id user_id : Nat) (td : TaskCreateData) : TodoTask :=
  { id := fresh_id, user_id := user_id, title := td.title,
    description := td.description, status := "pending",
    created_at := now, updated_at := now }

/-- `task_service.get_task_by_id` (Todo): first row with the given id. -/
def get_task_by_id (db : List TodoTask) (task_id : Nat) : Option TodoTask :=
  db.find? (fun t => t.id == task_id)

/-- `task_service.update_task` (Todo): `model_dump(exclude_unset=True)`
keeps exactly the fields present in the request; each is assigned onto
the row, then `updated_at` is refreshed to now. -/
def update_task (now : Nat) (task : TodoTask) (u : TaskUpdateData) : TodoTask :=
  let t1 := match u.title with
    | some v => { task with title := v }
    | none => task
  let t2 := match u.description with
    | some v => { t1 with description := v }
    | none => t1
  let t3 := match u.status with
    | some v => { t2 with status := v }
    | none => t2
  { t3 with updated_at := now }

/-- `task_service.validate_task_ownership` (Todo). -/
def validate_task_ownership (task : TodoTask) (user_id : Nat) : Bool :=
  task.user_id == user_id

/-- `task_service.toggle_task_completion` (Todo): `completed` becomes
`pending`, anything else becomes `completed`; `updated_at` refreshed. -/
def toggle_task_completion (now : Nat) (task : TodoTask) : TodoTask :=
  let st := if task.status = "completed" then "pending" else "completed"
  { task with status := st, updated_at := now }

/-- `TaskService.get_tasks_by_user` (backend): caller's tasks, with an
optional `completed` filter, newest first. -/
def BTaskService_get_tasks_by_user (db : List BTask) (user_id : Nat)
    (completed : Option Bool) : List BTask :=
  let q := db.filter (fun t => t.user_id == user_id)
  let q := match completed with
    | some c => q.filter (fun t => t.completed == c)
    | none => q
  sortDesc (fun t => t.created_at) q

/-- `TaskService.get_task_by_id` (backend): primary-key lookup, then
`None` unless the row's owner is the caller. -/
def BTaskService_get_task_by_id (db : List BTask) (task_id user_id : Nat) :
    Option BTask :=
  match db.find? (fun t => t.id == task_id) with
  | some t => if t.user_id == user_id then some t else none
  | none => none

/-- `TaskService.create_task` (backend): the row takes the model
defaults `completed=False` and `created_at`/`updated_at` = now. -/
def BTaskService_create_task (now fresh_id user_id : Nat)
    (td : BTaskCreateData) : BTask :=
  { id := fresh_id, user_id := user_id, title := td.title,
    description := td.description, completed := false,
    created_at := now, updated_at := now }

/-- Field assignment step of `TaskService.update_task` (backend). -/
def BTask_apply_update (now : Nat) (task : BTask) (u : BTaskUpdateData) :
    BTask :=
  let t1 := match u.title with
    | some v => { task with title := v }
    | none => task
  let t2 := match u.description with
    | some v => { t1 with description := v }
    | none => t1
  let t3 := match u.completed with
    | some v => { t2 with completed := v }
    | none => t2
  { t3 with updated_at := now }

/-- `TaskService.update_task` (backend): owner-scoped lookup, `None` if
it fails, otherwise the present fields are assigned and `updated_at`
refreshed. -/
def BTaskService_update_task (now : Nat) (db : List BTask)
    (task_id user_id : Nat) (u : BTaskUpdateData) : Option BTask :=
  match BTaskService_get_task_by_id db task_id user_id with
  | none => none
  | some t => some (BTask_apply_update now t u)

/-- `TaskService.delete_task` (backend): owner-scoped lookup; `False`
(here `none`) if it fails, otherwise the row is removed and `True`
returned (here the remaining rows). -/
def BTaskService_delete_task (db : List BTask) (task_id user_id : Nat) :
    Option (List BTask) :=
  match BTaskService_get_task_by_id db task_id user_id with
  | none => none
  | some t => some (db.filter (fun x => x.id != t.id))

/-- Flip step of `TaskService.toggle_task_completion` (backend). -/
def BTask_toggle (now : Nat) (t : BTask) : BTask :=
  { t with completed := !t.completed, updated_at := now }

/-- `TaskService.toggle_task_completion` (backend): owner-scoped lookup,
`None` if it fails, otherwise `completed = not completed` and
`updated_at` refreshed. -/
def BTaskService_toggle (now : Nat) (db : List BTask)
    (task_id user_id : Nat) : Option BTask :=
  match BTaskService_get_task_by_id db task_id user_id with
  | none => none
  | some t => some (BTask_toggle now t)

/-! ## Task routes

`Todo/app/routers/tasks.py` and `backend/src/api/routes/tasks.py`.  A
handler runs after `get_current_user` succeeded, so it receives the
authenticated user's id; `Except Nat _` returns the HTTP status raised
on failure. -/

/-- `routers/tasks.py` `get_user_tasks` (Todo): 403 whenever the token's
user differs from the path's `user_id`, otherwise the owner's tasks. -/
def get_user_tasks_route (db : List TodoTask)
    (current_user_id path_user_id : Nat) : Except Nat (List TodoTask) :=
  if current_user_id ≠ path_user_id then Except.error 403
  else Except.ok (get_user_tasks db path_user_id)

/-- `routers/tasks.py` `get_task` (Todo): 403 on a path/user mismatch,
404 when the id resolves to no row, 403 when the row's owner is not the
path user. -/
def get_task_route (db : List TodoTask)
    (current_user_id path_user_id task_id : Nat) : Except Nat TodoTask :=
  if current_user_id ≠ path_user_id then Except.error 403
  else match get_task_by_id db task_id with
    | none => Except.error 404
    | some t =>
      if validate_task_ownership t path_user_id then Except.ok t
      else Except.error 403

/-- `routes/tasks.py` `list_tasks` (backend): no owner in the path; the
caller's own tasks, optionally filtered by completion. -/
def b_list_tasks (db : List BTask) (current_user_id : Nat)
    (completed : Option Bool) : List BTask :=
  BTaskService_get_tasks_by_user db current_user_id completed

/-- `routes/tasks.py` `get_task` (backend): 404 whenever the
owner-scoped lookup returns `None`. -/
def b_get_task_route (db : List BTask) (task_id current_user_id : Nat) :
    Except Nat BTask :=
  match BTaskService_get_task_by_id db task_id current_user_id with
  | none => Except.error 404
  | some t => Except.ok t

/-- `routes/tasks.py` `update_task` (backend): 404 whenever the service
returns `None`. -/
def b_update_task_route (now : Nat) (db : List BTask)
    (task_id current_user_id : Nat) (u : BTaskUpdateData) :
    Except Nat BTask :=
  match BTaskService_update_task now db task_id current_user_id u with
  | none => Except.error 404
  | some t => Except.ok t

/-- `routes/tasks.py` `delete_task` (backend): 404 whenever the service
returns `False`. -/
def b_delete_task_route (db : List BTask) (task_id current_user_id : Nat) :
    Except Nat (List BTask) :=
  match BTaskService_delete_task db task_id current_user_id with
  | none => Except.error 404
  | some rest => Except.ok rest

/-- `routes/tasks.py` `toggle_task_completion` (backend): 404 whenever
the service returns `None`. -/
def b_toggle_task_route (now : Nat) (db : List BTask)
    (task_id current_user_id : Nat) : Except Nat BTask :=
  match BTaskService_toggle now db task_id current_user_id with
  | none => Except.error 404
  | some t => Except.ok t

/-! ## Credential hasher

Both variants call `CryptContext(schemes=["bcrypt"]).verify(pw, digest)`
with no exception handling.  Per passlib's documented behaviour,
`CryptContext.verify` raises `UnknownHashError` (a `ValueError`) when
the digest matches no configured scheme's format; bcrypt digests are
identified by their `$2b$` / `$2a$` / `$2y$` modular-crypt prefix.  The
bcrypt comparison itself is a foreign computation and is abstracted as
the `bcheck` parameter. -/

/-- Whether one character list starts with another. -/
def listStartsWith : List Char → List Char → Bool
  | _, [] => true
  | [], _ :: _ => false
  | c :: cs, p :: ps => c == p && listStartsWith cs ps

/-- Whether passlib identifies the digest as a bcrypt hash, by its
modular-crypt format marker. -/
def bcrypt_identify (digest : String) : Bool :=
  listStartsWith digest.data "$2b$".data ||
  listStartsWith digest.data "$2a$".data ||
  listStartsWith digest.data "$2y$".data

/-- `CryptContext.verify`: the comparison result on an identified
digest, an `UnknownHashError` otherwise. -/
def pwd_context_verify (bcheck : String → String → Bool)
    (pw digest : String) : Except String Bool :=
  if bcrypt_identify digest then Except.ok (bcheck pw digest)
  else Except.error "UnknownHashError"

/-- `verify_password` (Todo) and `AuthService.verify_password`
(backend): both are the bare `pwd_context.verify` call, with no
try/except around it. -/
def verify_password (bcheck : String → String → Bool)
    (pw digest : String) : Except String Bool :=
  pwd_context_verify bcheck pw digest

/-! ## Signin / login

`Todo/app/routers/auth.py` `signin` and
`backend/src/services/auth_service.py` `AuthService.authenticate_user`
with `backend/src/api/routes/auth.py` `login`.  Here `verify` is the
boolean password check as the handlers use it on well-formed stored
digests. -/

/-- `select(User).where(User.email == email)` then `.first()`. -/
def findByEmail (db : List UserRec) (email : String) : Option UserRec :=
  db.find? (fun u => u.email == email)

/-- `routers/auth.py` `signin` (Todo): 401 when the email resolves to no
user or the password fails verification, otherwise the user (from which
the token response is built). -/
def signin (verify : String → String → Bool) (db : List UserRec)
    (email password : String) : Except Nat UserRec :=
  match findByEmail db email with
  | none => Except.error 401
  | some u =>
    if verify password u.password_hash then Except.ok u
    else Except.error 401

/-- `AuthService.authenticate_user` (backend): `None` on unknown email,
`None` on a failed password check, otherwise the user. -/
def authenticate_user (verify : String → String → Bool) (db : List UserRec)
    (email password : String) : Option UserRec :=
  match findByEmail db email with
  | none => none
  | some u =>
    if verify password u.password_hash then some u else none

/-- `routes/auth.py` `login` (backend): 401 whenever
`authenticate_user` returns `None`. -/
def login (verify : String → String → Bool) (db : List UserRec)
    (email password : String) : Except Nat UserRec :=
  match authenticate_user verify db email password with
  | none => Except.error 401
  | some u => Except.ok u

/-! ## Authentication dependency (backend)

`backend/src/api/dependencies.py` `get_current_user`: decodes the
token, then runs `int(payload.get("sub"))` with no exception handling —
`int(None)` raises `TypeError` and `int` of a non-integer string raises
`ValueError`, both escaping the dependency as a server error rather
than an `HTTPException`. -/

/-- Outcome of the dependency: the user, an `HTTPException` with a
status code, or an exception escaping the handler uncaught. -/
inductive AuthOutcome (α : Type) where
  | ok : α → AuthOutcome α
  | http : Nat → AuthOutcome α
  | uncaught : String → AuthOutcome α
deriving DecidableEq

/-- Accumulate a nonempty run of decimal digits; `none` on any other
character or on an empty run. -/
def parseDecDigitsAux : List Char → Nat → Option Nat
  | [], acc => some acc
  | c :: cs, acc =>
    if c.isDigit then parseDecDigitsAux cs (10 * acc + (c.toNat - 48))
    else none

/-- Parse a nonempty all-digit character list. -/
def parseDecDigits : List Char → Option Nat
  | [] => none
  | cs => parseDecDigitsAux cs 0

/-- Python `int(string)`: surrounding whitespace is stripped, then an
optional sign and a nonempty run of decimal digits (digit-grouping
underscores omitted); anything else raises `ValueError`. -/
def python_int_of_string (s : String) : Option Int :=
  match (py_strip s).data with
  | '-' :: ds => (parseDecDigits ds).map (fun n => -(n : Int))
  | '+' :: ds => (parseDecDigits ds).map (fun n => (n : Int))
  | ds => (parseDecDigits ds).map (fun n => (n : Int))

/-- Python `int(...)` applied to `payload.get("sub")`: `TypeError` on
`None`, `ValueError` on a string that is not a decimal integer. -/
def python_int_of_sub : Option String → Except String Int
  | none => Except.error "TypeError"
  | some s =>
    match python_int_of_string s with
    | none => Except.error "ValueError"
    | some n => Except.ok n

/-- `api/dependencies.py` `get_current_user` (backend): 401 when the
token fails verification, then the unguarded `int(payload.get("sub"))`,
then a primary-key user lookup with 401 on a missing user. -/
def b_get_current_user (secret now : Nat) (users : List UserRec)
    (t : JwtToken) : AuthOutcome UserRec :=
  match decode_token secret now t with
  | none => AuthOutcome.http 401
  | some payload =>
    match python_int_of_sub payload.sub with
    | Except.error e => AuthOutcome.uncaught e
    | Except.ok uid =>
      match users.find? (fun u => (u.id : Int) == uid) with
      | none => AuthOutcome.http 401
      | some u => AuthOutcome.ok u

/-! ## Helper lemmas -/

/-- Membership is preserved by sorted insertion. -/
theorem mem_insertDesc {key : α → Nat} {x a : α} {l : List α} :
    a ∈ insertDesc key x l ↔ a = x ∨ a ∈ l := by
  induction l with
  | nil => simp [insertDesc]
  | cons y ys ih =>
    unfold insertDesc
    split
    · simp
    · simp only [List.mem_cons, ih]
      tauto

/-- Sorting by creation time does not change the set of rows. -/
theorem mem_sortDesc {key : α → Nat} {a : α} {l : List α} :
    a ∈ sortDesc key l ↔ a ∈ l := by
  induction l with
  | nil => simp [sortDesc]
  | cons y ys ih =>
    unfold sortDesc
    rw [mem_insertDesc, ih]
    simp

/-! ## Claims -/

/-- C1: a task-list request naming owner A, authenticated with a token
whose subject resolves to a different user B, yields HTTP 403 and never
returns A's tasks; in the integer-keyed variant the list endpoint names
no owner and only ever returns rows owned by the caller. -/
theorem C1_cross_owner_task_list_forbidden :
    (∀ (db : List TodoTask) (a b : Nat), b ≠ a →
      get_user_tasks_route db b a = Except.error 403) ∧
    (∀ (db : List BTask) (caller : Nat) (c : Option Bool) (t : BTask),
      t ∈ b_list_tasks db caller c → t.user_id = caller) := by
  constructor
  · intro db a b hne
    unfold get_user_tasks_route
    rw [if_pos hne]
  · intro db caller c t ht
    unfold b_list_tasks BTaskService_get_tasks_by_user at ht
    rw [mem_sortDesc] at ht
    cases c with
    | none =>
      simp only [List.mem_filter, beq_iff_eq] at ht
      exact ht.2
    | some cv =>
      simp only [List.mem_filter, beq_iff_eq] at ht
      exact ht.1.2

/-- Witness for C1 at concrete inputs: caller 2 asking for owner 1 is
rejected with 403, and a listed row belongs to the caller. -/
theorem C1_witness :
    get_user_tasks_route ([] : List TodoTask) 2 1 = Except.error 403 ∧
    ({ id := 1, user_id := 5, title := "t", description := none,
       completed := false, created_at := 0, updated_at := 0 } : BTask).user_id = 5 := by
  constructor
  · exact C1_cross_owner_task_list_forbidden.1 [] 1 2 (by decide)
  · exact C1_cross_owner_task_list_forbidden.2
      [{ id := 1, user_id := 5, title := "t", description := none,
         completed := false, created_at := 0, updated_at := 0 }] 5 none
      { id := 1, user_id := 5, title := "t", description := none,
        completed := false, created_at := 0, updated_at := 0 }
      (by decide)

/-- C2: every successfully created task is stored with status pending
(`completed = false` in the integer-keyed variant), the caller as owner,
and both timestamps equal to the creation time, whatever status, owner
or timestamps the client put in the body (the schemas drop them). -/
theorem C2_create_task_defaults :
    (∀ (b : ClientTaskBody) (td : TaskCreateData),
      parse_TaskCreate b = some td →
      ∀ (now fid uid : Nat),
        (create_task now fid uid td).status = "pending" ∧
        (create_task now fid uid td).user_id = uid ∧
        (create_task now fid uid td).created_at = now ∧
        (create_task now fid uid td).updated_at = now) ∧
    (∀ (b : ClientTaskBody) (td : BTaskCreateData),
      parse_BTaskCreate b = some td →
      ∀ (now fid uid : Nat),
        (BTaskService_create_task now fid uid td).completed = false ∧
        (BTaskService_create_task now fid uid td).user_id = uid ∧
        (BTaskService_create_task now fid uid td).created_at = now ∧
        (BTaskService_create_task now fid uid td).updated_at = now) := by
  constructor
  · intro _ _ _ now fid uid
    exact ⟨rfl, rfl, rfl, rfl⟩
  · intro _ _ _ now fid uid
    exact ⟨rfl, rfl, rfl, rfl⟩

/-- Witness for C2: a body that also smuggles a status, an owner id and
timestamps still parses to title/description only, and the stored rows
carry the defaults. -/
theorem C2_witness :
    ((create_task 10 1 7 { title := "Do it", description := none }).status = "pending" ∧
     (create_task 10 1 7 { title := "Do it", description := none }).user_id = 7 ∧
     (create_task 10 1 7 { title := "Do it", description := none }).created_at = 10 ∧
     (create_task 10 1 7 { title := "Do it", description := none }).updated_at = 10) ∧
    ((BTaskService_create_task 10 1 7 { title := "Do it", description := none }).completed = false ∧
     (BTaskService_create_task 10 1 7 { title := "Do it", description := none }).user_id = 7 ∧
     (BTaskService_create_task 10 1 7 { title := "Do it", description := none }).created_at = 10 ∧
     (BTaskService_create_task 10 1 7 { title := "Do it", description := none }).updated_at = 10) := by
  constructor
  · exact C2_create_task_defaults.1
      { title := "Do it", description := none, status := some "completed",
        user_id := some 99, created_at := some 5, updated_at := some 6 }
      { title := "Do it", description := none } (by decide) 10 1 7
  · exact C2_create_task_defaults.2
      { title := "Do it", description := none, status := some "completed",
        user_id := some 99, created_at := some 5, updated_at := some 6 }
      { title := "Do it", description := none } (by decide) 10 1 7

/-- C3: a token whose `exp` lies in the past fails verification in both
variants even when its signature is valid (no assumption is made on the
signature in the first conjunct); a signature mismatch or a structurally
malformed token also fails. -/
theorem C3_token_verification_failures :
    ∀ (secret now : Nat) (t : JwtToken),
      (t.payload.exp < now →
        decode_jwt_token secret now t = none ∧ decode_token secret now t = none) ∧
      (t.sig ≠ mkSig secret t.payload →
        decode_jwt_token secret now t = none ∧ decode_token secret now t = none) ∧
      (t.malformed = true →
        decode_jwt_token secret now t = none ∧ decode_token secret now t = none) := by
  intro secret now t
  have hexp : t.payload.exp < now → jwt_decode secret now t = none := by
    intro h
    simp [jwt_decode, h]
  have hsig : t.sig ≠ mkSig secret t.payload → jwt_decode secret now t = none := by
    intro h
    simp [jwt_decode, h]
  have hmal : t.malformed = true → jwt_decode secret now t = none := by
    intro h
    simp [jwt_decode, h]
  exact ⟨fun h => ⟨hexp h, hexp h⟩, fun h => ⟨hsig h, hsig h⟩, fun h => ⟨hmal h, hmal h⟩⟩

/-- Witness for C3: a correctly signed but expired token, a token with
a wrong signature, and a malformed token all decode to `none`. -/
theorem C3_witness :
    decode_jwt_token 7 10
      { payload := { sub := some "1", email := none, exp := 5 },
        sig := mkSig 7 { sub := some "1", email := none, exp := 5 },
        malformed := false } = none ∧
    decode_jwt_token 7 0
      { payload := { sub := some "1", email := none, exp := 5 },
        sig := 0, malformed := false } = none ∧
    decode_jwt_token 7 0
      { payload := { sub := some "1", email := none, exp := 5 },
        sig := 0, malformed := true } = none := by
  refine ⟨?_, ?_, ?_⟩
  · exact ((C3_token_verification_failures 7 10
      { payload := { sub := some "1", email := none, exp := 5 },
        sig := mkSig 7 { sub := some "1", email := none, exp := 5 },
        malformed := false }).1 (by decide)).1
  · exact ((C3_token_verification_failures 7 0
      { payload := { sub := some "1", email := none, exp := 5 },
        sig := 0, malformed := false }).2.1 (by decide)).1
  · exact ((C3_token_verification_failures 7 0
      { payload := { sub := some "1", email := none, exp := 5 },
        sig := 0, malformed := true }).2.2 rfl).1

/-- C4: signin succeeds exactly when the email resolves to a user and
the password verifies against that user's stored hash, and every
failure — unknown email or wrong password alike — carries the same 401
status, in both variants. -/
theorem C4_signin_iff_uniform_401 :
    ∀ (verify : String → String → Bool) (db : List UserRec) (email pw : String),
      (∀ u, signin verify db email pw = Except.ok u ↔
        findByEmail db email = some u ∧ verify pw u.password_hash = true) ∧
      (∀ e, signin verify db email pw = Except.error e → e = 401) ∧
      (∀ u, authenticate_user verify db email pw = some u ↔
        findByEmail db email = some u ∧ verify pw u.password_hash = true) ∧
      (∀ e, login verify db email pw = Except.error e → e = 401) := by
  intro verify db email pw
  cases hf : findByEmail db email with
  | none =>
    refine ⟨?_, ?_, ?_, ?_⟩
    · intro u
      simp [signin, hf]
    · intro e he
      simp only [signin, hf, Except.error.injEq] at he
      exact he.symm
    · intro u
      simp [authenticate_user, hf]
    · intro e he
      simp only [login, authenticate_user, hf, Except.error.injEq] at he
      exact he.symm
  | some u0 =>
    by_cases hv : verify pw u0.password_hash = true
    · refine ⟨?_, ?_, ?_, ?_⟩
      · intro u
        constructor
        · intro h
          simp only [signin, hf, if_pos hv, Except.ok.injEq] at h
          subst h
          exact ⟨rfl, hv⟩
        · rintro ⟨h1, h2⟩
          injection h1 with h1
          subst h1
          simp [signin, hf, if_pos hv]
      · intro e he
        simp [signin, hf, if_pos hv] at he
      · intro u
        constructor
        · intro h
          simp only [authenticate_user, hf, if_pos hv, Option.some.injEq] at h
          subst h
          exact ⟨rfl, hv⟩
        · rintro ⟨h1, h2⟩
          injection h1 with h1
          subst h1
          simp [authenticate_user, hf, if_pos hv]
      · intro e he
        simp [login, authenticate_user, hf, if_pos hv] at he
    · refine ⟨?_, ?_, ?_, ?_⟩
      · intro u
        constructor
        · intro h
          simp [signin, hf, if_neg hv] at h
        · rintro ⟨h1, h2⟩
          injection h1 with h1
          subst h1
          exact absurd h2 hv
      · intro e he
        simp only [signin, hf, if_neg hv, Except.error.injEq] at he
        exact he.symm
      · intro u
        constructor
        · intro h
          simp [authenticate_user, hf, if_neg hv] at h
        · rintro ⟨h1, h2⟩
          injection h1 with h1
          subst h1
          exact absurd h2 hv
      · intro e he
        simp only [login, authenticate_user, hf, if_neg hv, Except.error.injEq] at he
        exact he.symm

/-- Witness for C4 at a concrete store and a concrete (equality) check:
the right password signs in, the wrong password and the unknown email
both fail with 401. -/
theorem C4_witness :
    (signin (fun p h => p == h) [⟨1, "a@x.com", "pw", 0⟩] "a@x.com" "pw" =
      Except.ok (⟨1, "a@x.com", "pw", 0⟩ : UserRec)) ∧
    (∀ e, signin (fun p h => p == h) [⟨1, "a@x.com", "pw", 0⟩] "a@x.com" "bad" =
      Except.error e → e = 401) ∧
    (∀ e, signin (fun p h => p == h) [⟨1, "a@x.com", "pw", 0⟩] "b@x.com" "pw" =
      Except.error e → e = 401) := by
  refine ⟨?_, ?_, ?_⟩
  · exact ((C4_signin_iff_uniform_401 (fun p h => p == h)
      [⟨1, "a@x.com", "pw", 0⟩] "a@x.com" "pw").1 ⟨1, "a@x.com", "pw", 0⟩).mpr
      (by constructor <;> decide)
  · exact (C4_signin_iff_uniform_401 (fun p h => p == h)
      [⟨1, "a@x.com", "pw", 0⟩] "a@x.com" "bad").2.1
  · exact (C4_signin_iff_uniform_401 (fun p h => p == h)
      [⟨1, "a@x.com", "pw", 0⟩] "b@x.com" "pw").2.1

/-- C5 counterexample: on the malformed digest "not-a-hash" the
password-verify operation raises passlib's `UnknownHashError` — it does
not return false.  The claim that it never throws and returns false on a
malformed digest is false at this input. -/
theorem C5_counterexample :
    verify_password (fun _ _ => false) "pw" "not-a-hash" =
      Except.error "UnknownHashError" ∧
    verify_password (fun _ _ => false) "pw" "not-a-hash" ≠
      Except.ok false := by
  constructor
  · rfl
  · intro h
    simp [verify_password, pwd_context_verify, bcrypt_identify, listStartsWith] at h

/-- C5 amended: `verify_password` wraps `CryptContext.verify` with no
exception handling, so on a digest not identified as a bcrypt hash it
propagates `UnknownHashError` instead of returning false; on an
identified digest it returns the comparison result and never throws. -/
theorem C5_verify_password_malformed_digest :
    ∀ (bcheck : String → String → Bool) (pw digest : String),
      (bcrypt_identify digest = false →
        verify_password bcheck pw digest = Except.error "UnknownHashError") ∧
      (bcrypt_identify digest = true →
        verify_password bcheck pw digest = Except.ok (bcheck pw digest)) := by
  intro bcheck pw digest
  constructor <;> intro h <;> simp [verify_password, pwd_context_verify, h]

/-- Witness for the amended C5: a malformed digest errors, a
bcrypt-formatted digest returns the comparison outcome. -/
theorem C5_witness :
    verify_password (fun _ _ => true) "pw" "xyz" =
      Except.error "UnknownHashError" ∧
    verify_password (fun _ _ => true) "pw" "$2b$12$abcdefghijk" =
      Except.ok true := by
  constructor
  · exact (C5_verify_password_malformed_digest (fun _ _ => true) "pw" "xyz").1
      (by decide)
  · exact (C5_verify_password_malformed_digest
      (fun _ _ => true) "pw" "$2b$12$abcdefghijk").2 (by decide)

/-- C6 counterexample: in the integer-keyed variant a whitespace-only
title passes schema validation and is stored verbatim, so the claim
that every create/update request trims the title and rejects a
blank-after-trim title (whitespace-only never stored) is false there. -/
theorem C6_counterexample :
    parse_BTaskCreate
      { title := "   ", description := none, status := none,
        user_id := none, created_at := none, updated_at := none } =
      some { title := "   ", description := none } ∧
    (BTaskService_create_task 3 1 2 { title := "   ", description := none }).title =
      "   " := by
  exact ⟨by decide, rfl⟩

/-- A present title accepted by the Todo update schema is the stripped
form of the raw title and is non-blank. -/
theorem validate_update_title_strips {x : Option String} {s : String}
    (h : validate_update_title x = some (some s)) :
    s.isEmpty = false ∧ ∃ raw, x = some raw ∧ s = py_strip raw := by
  cases x with
  | none => simp [validate_update_title] at h
  | some raw =>
    simp only [validate_update_title] at h
    by_cases h1 : raw.length < 1
    · simp [h1] at h
    · by_cases h2 : 255 < raw.length
      · simp [h1, h2] at h
      · by_cases h3 : (py_strip raw).isEmpty = true
        · simp [h1, h2, h3] at h
        · simp [h1, h2, h3] at h
          subst h
          exact ⟨by simpa using h3, raw, rfl, rfl⟩

/-- The backend update schema keeps an accepted title verbatim. -/
theorem validate_b_update_title_verbatim {x t : Option String}
    (h : validate_b_update_title x = some t) : t = x := by
  cases x with
  | none =>
    simp only [validate_b_update_title, Option.some.injEq] at h
    exact h.symm
  | some raw =>
    simp only [validate_b_update_title] at h
    by_cases h1 : 255 < raw.length
    · simp [h1] at h
    · simp [h1] at h
      exact h.symm


/-- C6 amended: the title trim/non-empty rule holds only in the
UUID-keyed variant — there, create and update reject a blank-after-trim
title (422) and store the stripped, non-empty title; the integer-keyed
variant checks only length bounds and stores the client title verbatim,
including empty or whitespace-only titles. -/
theorem C6_title_trim_rules :
    (∀ b : ClientTaskBody, (py_strip b.title).isEmpty = true →
      parse_TaskCreate b = none) ∧
    (∀ (b : ClientTaskBody) (td : TaskCreateData), parse_TaskCreate b = some td →
      td.title = py_strip b.title ∧ td.title.isEmpty = false ∧
      ∀ now fid uid, (create_task now fid uid td).title = td.title) ∧
    (∀ (u : RawTaskUpdate) (s : String), u.title = some s →
      (py_strip s).isEmpty = true → parse_TaskUpdate u = none) ∧
    (∀ (u : RawTaskUpdate) (d : TaskUpdateData) (s : String),
      parse_TaskUpdate u = some d → d.title = some s →
      s.isEmpty = false ∧ ∃ raw, u.title = some raw ∧ s = py_strip raw) ∧
    (∀ (b : ClientTaskBody) (td : BTaskCreateData), parse_BTaskCreate b = some td →
      td.title = b.title) ∧
    (∀ (u : RawBTaskUpdate) (d : BTaskUpdateData), parse_BTaskUpdate u = some d →
      d.title = u.title) := by
  refine ⟨?_, ?_, ?_, ?_, ?_, ?_⟩
  · intro b h
    simp [parse_TaskCreate, h]
  · intro b td h
    simp only [parse_TaskCreate] at h
    by_cases h1 : b.title.length < 1
    · simp [h1] at h
    · by_cases h2 : 255 < b.title.length
      · simp [h1, h2] at h
      · by_cases h3 : descTooLong 2000 b.description = true
        · simp [h1, h2, h3] at h
        · by_cases h4 : (py_strip b.title).isEmpty = true
          · simp [h1, h2, h3, h4] at h
          · simp [h1, h2, h3, h4] at h
            subst h
            refine ⟨rfl, ?_, fun now fid uid => rfl⟩
            simpa using h4
  · intro u s hus h
    have hv : validate_update_title u.title = none := by
      rw [hus]
      simp [validate_update_title, h]
    simp [parse_TaskUpdate, hv]
  · intro u d s hparse hds
    simp only [parse_TaskUpdate] at hparse
    cases ht : validate_update_title u.title with
    | none => rw [ht] at hparse; simp at hparse
    | some tval =>
      cases hd : validate_update_description 2000 u.description with
      | none => rw [ht, hd] at hparse; simp at hparse
      | some dval =>
        cases hs : validate_update_status u.status with
        | none => rw [ht, hd, hs] at hparse; simp at hparse
        | some sval =>
          rw [ht, hd, hs] at hparse
          simp only [Option.some.injEq] at hparse
          subst hparse
          simp only at hds
          subst hds
          exact validate_update_title_strips ht
  · intro b td h
    simp only [parse_BTaskCreate] at h
    by_cases h1 : 255 < b.title.length
    · simp [h1] at h
    · by_cases h2 : descTooLong 1000 b.description = true
      · simp [h1, h2] at h
      · simp [h1, h2] at h
        subst h
        rfl
  · intro u d h
    simp only [parse_BTaskUpdate] at h
    cases ht : validate_b_update_title u.title with
    | none => rw [ht] at h; simp at h
    | some tval =>
      cases hd : validate_update_description 1000 u.description with
      | none => rw [ht, hd] at h; simp at h
      | some dval =>
        rw [ht, hd] at h
        simp only [Option.some.injEq] at h
        subst h
        simpa using validate_b_update_title_verbatim ht

/-- Witness for the amended C6: a blank title is rejected by the
UUID-variant create and update schemas, a padded title is stored
stripped, and the integer-variant create keeps the title verbatim. -/
theorem C6_witness :
    parse_TaskCreate
      { title := "  ", description := none, status := none,
        user_id := none, created_at := none, updated_at := none } = none ∧
    (⟨"x", none⟩ : TaskCreateData).title = py_strip " x " ∧
    (create_task 5 6 7 ⟨"x", none⟩).title = "x" ∧
    parse_TaskUpdate { title := some " ", description := none, status := none } =
      none ∧
    (⟨"   ", none⟩ : BTaskCreateData).title =
      ({ title := "   ", description := none, status := none,
         user_id := none, created_at := none, updated_at := none } :
        ClientTaskBody).title := by
  refine ⟨?_, ?_, ?_, ?_, ?_⟩
  · exact C6_title_trim_rules.1
      { title := "  ", description := none, status := none,
        user_id := none, created_at := none, updated_at := none } (by decide)
  · exact (C6_title_trim_rules.2.1
      { title := " x ", description := none, status := none,
        user_id := none, created_at := none, updated_at := none }
      ⟨"x", none⟩ (by decide)).1
  · exact (C6_title_trim_rules.2.1
      { title := " x ", description := none, status := none,
        user_id := none, created_at := none, updated_at := none }
      ⟨"x", none⟩ (by decide)).2.2 5 6 7
  · exact C6_title_trim_rules.2.2.1
      { title := some " ", description := none, status := none } " " rfl (by decide)
  · exact C6_title_trim_rules.2.2.2.2.1
      { title := "   ", description := none, status := none,
        user_id := none, created_at := none, updated_at := none }
      ⟨"   ", none⟩ (by decide)

/-- C7: a partial update applies exactly the fields present in the
request — absent fields keep their prior values, `id`, `user_id` and
`created_at` are never touched, `updated_at` is refreshed to now on
every update, and an empty body changes only `updated_at`; in both
variants. -/
theorem C7_partial_update_frame :
    (∀ (now : Nat) (task : TodoTask) (u : TaskUpdateData),
      (update_task now task u).id = task.id ∧
      (update_task now task u).user_id = task.user_id ∧
      (update_task now task u).created_at = task.created_at ∧
      (update_task now task u).updated_at = now ∧
      (u.title = none → (update_task now task u).title = task.title) ∧
      (∀ v, u.title = some v → (update_task now task u).title = v) ∧
      (u.description = none →
        (update_task now task u).description = task.description) ∧
      (∀ v, u.description = some v → (update_task now task u).description = v) ∧
      (u.status = none → (update_task now task u).status = task.status) ∧
      (∀ v, u.status = some v → (update_task now task u).status = v) ∧
      (u = { title := none, description := none, status := none } →
        update_task now task u = { task with updated_at := now })) ∧
    (∀ (now : Nat) (task : BTask) (u : BTaskUpdateData),
      (BTask_apply_update now task u).id = task.id ∧
      (BTask_apply_update now task u).user_id = task.user_id ∧
      (BTask_apply_update now task u).created_at = task.created_at ∧
      (BTask_apply_update now task u).updated_at = now ∧
      (u.title = none → (BTask_apply_update now task u).title = task.title) ∧
      (∀ v, u.title = some v → (BTask_apply_update now task u).title = v) ∧
      (u.description = none →
        (BTask_apply_update now task u).description = task.description) ∧
      (∀ v, u.description = some v →
        (BTask_apply_update now task u).description = v) ∧
      (u.completed = none →
        (BTask_apply_update now task u).completed = task.completed) ∧
      (∀ v, u.completed = some v → (BTask_apply_update now task u).completed = v) ∧
      (u = { title := none, description := none, completed := none } →
        BTask_apply_update now task u = { task with updated_at := now })) := by
  constructor
  · intro now task u
    obtain ⟨t, d, s⟩ := u
    cases t <;> cases d <;> cases s <;> simp [update_task]
  · intro now task u
    obtain ⟨t, d, c⟩ := u
    cases t <;> cases d <;> cases c <;> simp [BTask_apply_update]

/-- Witness for C7: an empty body leaves every field of a concrete task
unchanged except `updated_at`. -/
theorem C7_witness :
    update_task 9 ⟨1, 2, "t", some "d", "pending", 3, 4⟩
      { title := none, description := none, status := none } =
      ⟨1, 2, "t", some "d", "pending", 3, 9⟩ ∧
    BTask_apply_update 9 ⟨1, 2, "t", some "d", false, 3, 4⟩
      { title := none, description := none, completed := none } =
      ⟨1, 2, "t", some "d", false, 3, 9⟩ := by
  constructor
  · exact (C7_partial_update_frame.1 9 ⟨1, 2, "t", some "d", "pending", 3, 4⟩
      { title := none, description := none, status := none }).2.2.2.2.2.2.2.2.2.2 rfl
  · exact (C7_partial_update_frame.2 9 ⟨1, 2, "t", some "d", false, 3, 4⟩
      { title := none, description := none, completed := none }).2.2.2.2.2.2.2.2.2.2 rfl

/-- C8: toggling completion flips pending to completed and completed to
pending (the boolean flag is negated in the integer-keyed variant), so
two toggles restore the original two-state flag; and the toggle service
succeeds whenever the task exists and is owned by the caller. -/
theorem C8_toggle_completion_involutive :
    (∀ (n1 n2 : Nat) (t : TodoTask),
      t.status = "pending" ∨ t.status = "completed" →
      (toggle_task_completion n2 (toggle_task_completion n1 t)).status = t.status) ∧
    (∀ (n : Nat) (t : TodoTask), t.status = "pending" →
      (toggle_task_completion n t).status = "completed") ∧
    (∀ (n : Nat) (t : TodoTask), t.status = "completed" →
      (toggle_task_completion n t).status = "pending") ∧
    (∀ (n1 n2 : Nat) (t : BTask),
      (BTask_toggle n2 (BTask_toggle n1 t)).completed = t.completed ∧
      (BTask_toggle n1 t).completed = !t.completed) ∧
    (∀ (n : Nat) (db : List BTask) (tid uid : Nat) (t : BTask),
      List.find? (fun x => x.id == tid) db = some t → t.user_id = uid →
      BTaskService_toggle n db tid uid = some (BTask_toggle n t)) := by
  refine ⟨?_, ?_, ?_, ?_, ?_⟩
  · rintro n1 n2 t (h | h) <;> simp [toggle_task_completion, h]
  · intro n t h
    simp [toggle_task_completion, h]
  · intro n t h
    simp [toggle_task_completion, h]
  · intro n1 n2 t
    exact ⟨by simp [BTask_toggle], rfl⟩
  · intro n db tid uid t hfind howner
    unfold BTaskService_toggle BTaskService_get_task_by_id
    rw [hfind]
    simp [howner]

/-- Witness for C8: double-toggling a concrete pending task restores
pending, a single toggle yields completed, and the owner-scoped toggle
service succeeds on a concrete store. -/
theorem C8_witness :
    (toggle_task_completion 8 (toggle_task_completion 7
      ⟨1, 2, "t", none, "pending", 0, 0⟩)).status = "pending" ∧
    (toggle_task_completion 7 ⟨1, 2, "t", none, "pending", 0, 0⟩).status =
      "completed" ∧
    BTaskService_toggle 7 [⟨1, 2, "t", none, false, 0, 0⟩] 1 2 =
      some (BTask_toggle 7 ⟨1, 2, "t", none, false, 0, 0⟩) := by
  refine ⟨?_, ?_, ?_⟩
  · exact C8_toggle_completion_involutive.1 7 8
      ⟨1, 2, "t", none, "pending", 0, 0⟩ (Or.inl rfl)
  · exact C8_toggle_completion_involutive.2.1 7
      ⟨1, 2, "t", none, "pending", 0, 0⟩ rfl
  · exact C8_toggle_completion_involutive.2.2.2.2 7
      [⟨1, 2, "t", none, false, 0, 0⟩] 1 2
      ⟨1, 2, "t", none, false, 0, 0⟩ (by decide) rfl

/-- C9: in the integer-keyed variant a single-task operation on an id
that exists but belongs to another user is reported as 404 (the
owner-scoped lookup returns `None`) for get, update, delete and toggle
alike, never as 403; the UUID-keyed variant instead answers 403 in the
same cross-owner situation. -/
theorem C9_cross_owner_404_vs_403 :
    (∀ (db : List BTask) (tid caller now : Nat) (t : BTask)
        (u : BTaskUpdateData),
      List.find? (fun x => x.id == tid) db = some t → t.user_id ≠ caller →
      b_get_task_route db tid caller = Except.error 404 ∧
      b_update_task_route now db tid caller u = Except.error 404 ∧
      b_delete_task_route db tid caller = Except.error 404 ∧
      b_toggle_task_route now db tid caller = Except.error 404) ∧
    (∀ (db : List TodoTask) (tid caller : Nat) (t : TodoTask),
      get_task_by_id db tid = some t → t.user_id ≠ caller →
      get_task_route db caller caller tid = Except.error 403) := by
  constructor
  · intro db tid caller now t u hfind howner
    have hnone : BTaskService_get_task_by_id db tid caller = none := by
      unfold BTaskService_get_task_by_id
      rw [hfind]
      simp [howner]
    refine ⟨?_, ?_, ?_, ?_⟩
    · simp [b_get_task_route, hnone]
    · simp [b_update_task_route, BTaskService_update_task, hnone]
    · simp [b_delete_task_route, BTaskService_delete_task, hnone]
    · simp [b_toggle_task_route, BTaskService_toggle, hnone]
  · intro db tid caller t hfind howner
    unfold get_task_route
    rw [if_neg (by simp), hfind]
    simp [validate_task_ownership, howner]

/-- Witness for C9: task 1 belongs to user 2; user 3 gets 404 from every
integer-variant route and 403 from the UUID-variant route. -/
theorem C9_witness :
    b_get_task_route [⟨1, 2, "t", none, false, 0, 0⟩] 1 3 = Except.error 404 ∧
    b_update_task_route 9 [⟨1, 2, "t", none, false, 0, 0⟩] 1 3
      { title := none, description := none, completed := none } =
      Except.error 404 ∧
    b_delete_task_route [⟨1, 2, "t", none, false, 0, 0⟩] 1 3 =
      Except.error 404 ∧
    b_toggle_task_route 9 [⟨1, 2, "t", none, false, 0, 0⟩] 1 3 =
      Except.error 404 ∧
    get_task_route [⟨1, 2, "t", none, "pending", 0, 0⟩] 3 3 1 =
      Except.error 403 := by
  have hb := C9_cross_owner_404_vs_403.1 [⟨1, 2, "t", none, false, 0, 0⟩] 1 3 9
    ⟨1, 2, "t", none, false, 0, 0⟩
    { title := none, description := none, completed := none }
    (by decide) (by decide)
  have hu := C9_cross_owner_404_vs_403.2 [⟨1, 2, "t", none, "pending", 0, 0⟩] 1 3
    ⟨1, 2, "t", none, "pending", 0, 0⟩ (by decide) (by decide)
  exact ⟨hb.1, hb.2.1, hb.2.2.1, hb.2.2.2, hu⟩

/-- C10: in the integer-keyed variant, a validly signed, unexpired,
well-formed token whose `sub` claim is absent or not a decimal-integer
string makes `get_current_user` fail with an uncaught
`TypeError`/`ValueError` from `int(payload.get("sub"))`, not with a
401-class `HTTPException`. -/
theorem C10_bad_sub_uncaught :
    ∀ (secret now : Nat) (users : List UserRec) (t : JwtToken),
      t.malformed = false → t.sig = mkSig secret t.payload →
      ¬ t.payload.exp < now →
      (t.payload.sub = none →
        b_get_current_user secret now users t = AuthOutcome.uncaught "TypeError") ∧
      (∀ s, t.payload.sub = some s → python_int_of_string s = none →
        b_get_current_user secret now users t = AuthOutcome.uncaught "ValueError") := by
  intro secret now users t hmal hsig hexp
  have hdec : decode_token secret now t = some t.payload := by
    simp [decode_token, jwt_decode, hmal, hsig, hexp]
  constructor
  · intro hsub
    simp [b_get_current_user, hdec, python_int_of_sub, hsub]
  · intro s hsub hint
    simp [b_get_current_user, hdec, python_int_of_sub, hsub, hint]

/-- Witness for C10: two concrete well-signed unexpired tokens, one with
no `sub` and one with `sub = "abc"`, both escape the 401/403 taxonomy
with an uncaught exception. -/
theorem C10_witness :
    b_get_current_user 3 5 []
      { payload := { sub := none, email := none, exp := 100 },
        sig := mkSig 3 { sub := none, email := none, exp := 100 },
        malformed := false } = AuthOutcome.uncaught "TypeError" ∧
    b_get_current_user 3 5 []
      { payload := { sub := some "abc", email := none, exp := 100 },
        sig := mkSig 3 { sub := some "abc", email := none, exp := 100 },
        malformed := false } = AuthOutcome.uncaught "ValueError" := by
  constructor
  · exact (C10_bad_sub_uncaught 3 5 []
      { payload := { sub := none, email := none, exp := 100 },
        sig := mkSig 3 { sub := none, email := none, exp := 100 },
        malformed := false } rfl rfl (by decide)).1 rfl
  · exact (C10_bad_sub_uncaught 3 5 []
      { payload := { sub := some "abc", email := none, exp := 100 },
        sig := mkSig 3 { sub := some "abc", email := none, exp := 100 },
        malformed := false } rfl rfl (by decide)).2 "abc" rfl (by decide)

end PoshCode
